import Mathlib

/-!
Shallow embedding of the OPTIMA parts-tracking application.

The repository contains several coexisting generations of the same modules.
The embedding covers both generations wherever a claim cites both:

* `Optima.Crud`       — src/src/optima/crud/database.py and routes.py
* `Optima.LegacyCrud` — src/CRUD/crud.py
* `Optima.Finder`     — src/src/optima/finder/database.py
* `Optima.Auth`       — src/src/optima/login/auth_functions.py and
                        auth_blueprint.py

SQLite TEXT values are `String`, nullable columns are `Option`, INTEGER
booleans are `Bool`, tables are `List` of row structures in insertion
order, and AUTOINCREMENT is an explicit `nextId` counter.  Python
exceptions are `Except String`.
-/

namespace Optima

/-! ### Calendar dates and Python's datetime.strptime(s, "%Y-%m-%d") -/

/-- A proleptic Gregorian calendar date, as produced by Python's
`datetime.date`. -/
structure Date where
  year : Nat
  month : Nat
  day : Nat
deriving DecidableEq, Repr

/-- Gregorian leap-year rule, as implemented by Python's `datetime`. -/
def isLeapYear (y : Nat) : Bool :=
  (y % 4 == 0 && y % 100 != 0) || y % 400 == 0

/-- Number of days in a month of a given year (Python `calendar` rules). -/
def daysInMonth (y m : Nat) : Nat :=
  if m == 2 then (if isLeapYear y then 29 else 28)
  else if m == 4 || m == 6 || m == 9 || m == 11 then 30
  else 31

/-- Splits a character list on the dash character, mirroring how the fixed
format string "%Y-%m-%d" cuts the input at its literal dashes. -/
def splitOnDash : List Char → List (List Char)
  | [] => [[]]
  | c :: cs =>
    if c = '-' then [] :: splitOnDash cs
    else
      match splitOnDash cs with
      | [] => [[c]]
      | g :: gs => (c :: g) :: gs

/-- Tests that every character is an ASCII digit. -/
def allDigits (cs : List Char) : Bool :=
  cs.all fun c => decide ('0' ≤ c) && decide (c ≤ '9')

/-- Numeric value of an ASCII digit string. -/
def natOfDigits (cs : List Char) : Nat :=
  cs.foldl (fun a c => 10 * a + (c.toNat - 48)) 0

/-- A numeric field of `datetime.strptime`: CPython's `%Y` directive
matches exactly four digits, `%m` and `%d` match one or two digits. -/
def parseField (lo hi : Nat) (cs : List Char) : Option Nat :=
  if lo ≤ cs.length && cs.length ≤ hi && allDigits cs then
    some (natOfDigits cs)
  else
    none

/-- Embeds `datetime.strptime(s, "%Y-%m-%d").date()`: three dash-separated
digit fields, year of exactly four digits and at least 1 (datetime.MINYEAR),
month 1..12, day within the month, else a ValueError (`none`). -/
def parseDateYMD (s : String) : Option Date :=
  match splitOnDash s.data with
  | [ys, ms, ds] =>
    match parseField 4 4 ys, parseField 1 2 ms, parseField 1 2 ds with
    | some y, some m, some d =>
      if 1 ≤ y && 1 ≤ m && m ≤ 12 && 1 ≤ d && d ≤ daysInMonth y m then
        some ⟨y, m, d⟩
      else
        none
    | _, _, _ => none
  | _ => none

/-- Previous-day arithmetic on the proleptic Gregorian calendar, total:
the value Python computes whenever the result stays at or above
`date.min`. -/
def prevDayAux (d : Date) : Date :=
  if d.day > 1 then ⟨d.year, d.month, d.day - 1⟩
  else if d.month > 1 then ⟨d.year, d.month - 1, daysInMonth d.year (d.month - 1)⟩
  else ⟨d.year - 1, 12, 31⟩

/-- Embeds `reminder_date - timedelta(days=1)` on `datetime.date` values:
the type is bounded below by date(1, 1, 1) (`date.min`, reachable since
`strptime` accepts the four-digit year 0001), and subtracting one day
from it raises OverflowError — which is not a ValueError, so the
notification loops' `except ValueError` does not catch it. -/
def prevDay (d : Date) : Except String Date :=
  if d = ⟨1, 1, 1⟩ then .error "OverflowError: date value out of range"
  else .ok (prevDayAux d)

/-! ### The items table of parts.db -/

/-- One row of the `items` table created by `init_db` in
src/src/optima/crud/database.py (same schema in src/CRUD/crud.py):
id INTEGER PRIMARY KEY AUTOINCREMENT, part_number TEXT NOT NULL,
item_name TEXT NOT NULL, chapter INTEGER NOT NULL, reminder_date TEXT
(nullable), notification_shown INTEGER DEFAULT 0. -/
structure Item where
  id : Nat
  part_number : String
  item_name : String
  chapter : Int
  reminder_date : Option String
  notification_shown : Bool
deriving DecidableEq, Repr

/-- The `items` table in insertion order together with the AUTOINCREMENT
counter (SQLite assigns ids strictly larger than all ids ever used). -/
structure ItemsDB where
  rows : List Item
  nextId : Nat
deriving DecidableEq, Repr

/-- Well-formedness maintained by AUTOINCREMENT: every stored id is below
the counter. -/
def ItemsDB.wf (db : ItemsDB) : Prop :=
  ∀ r ∈ db.rows, r.id < db.nextId

/-- A derived notification, `{"item_name": ..., "message": ...}`. -/
structure Notification where
  item_name : String
  message : String
deriving DecidableEq, Repr

/-- The ASCII single-quote character used by the f-string messages. -/
def squote : String := String.mk [Char.ofNat 39]

/-- Embeds the f-string `f"Tomorrow is the reminder date for '{item_name}'."`. -/
def tomorrowNotif (item_name : String) : Notification :=
  ⟨item_name, "Tomorrow is the reminder date for " ++ squote ++ item_name ++ squote ++ "."⟩

/-- Embeds the f-string `f"Today is the reminder date for '{item_name}'."`. -/
def todayNotif (item_name : String) : Notification :=
  ⟨item_name, "Today is the reminder date for " ++ squote ++ item_name ++ squote ++ "."⟩

/-- The SQL filter shared by both generations of the notification query:
`WHERE reminder_date IS NOT NULL AND notification_shown = 0`. -/
def notifQueryFilter (r : Item) : Bool :=
  r.reminder_date.isSome && !r.notification_shown

namespace Crud

/-- Embeds the loop body of `get_upcoming_notifications` in
src/src/optima/crud/database.py lines 154-173 under its try/except: the
truthiness check `if reminder_date:`, then `strptime`, whose ValueError
is caught by line 172 (the row is logged and skipped, contributing no
message), then `reminder_date - timedelta(days=1)`, whose OverflowError
at date.min is not caught by `except ValueError` and so aborts the whole
scan, then the tomorrow/today comparisons. -/
def notifyOne (today : Date) (item_name : String) (rd : String) :
    Except String (List Notification) :=
  if rd = "" then .ok []
  else
    match parseDateYMD rd with
    | none => .ok []
    | some d =>
      match prevDay d with
      | .error e => .error e
      | .ok dm1 =>
        if today = dm1 then .ok [tomorrowNotif item_name]
        else if today = d then .ok [todayNotif item_name]
        else .ok []

/-- The `for item_id, item_name, reminder_date in items:` loop, appending
each row's messages in insertion order; an uncaught error from any row
aborts the loop, discarding the accumulated messages. -/
def notifScan (today : Date) : List Item → Except String (List Notification)
  | [] => .ok []
  | r :: rs =>
    match notifyOne today r.item_name (r.reminder_date.getD "") with
    | .error e => .error e
    | .ok ms =>
      match notifScan today rs with
      | .error e => .error e
      | .ok rest => .ok (ms ++ rest)

/-- Embeds `get_upcoming_notifications` of src/src/optima/crud/database.py
lines 134-175, with the current date passed explicitly. -/
def get_upcoming_notifications (db : ItemsDB) (today : Date) :
    Except String (List Notification) :=
  notifScan today (db.rows.filter notifQueryFilter)

/-- Embeds `create_part` of src/src/optima/crud/database.py lines 178-205:
falsy-check on the three text fields, strptime format check, then
`INSERT INTO items (part_number, item_name, chapter, reminder_date)`
(notification_shown takes its DEFAULT 0). -/
def create_part (db : ItemsDB) (part_number item_name : String) (chapter : Int)
    (reminder_date : String) : Except String ItemsDB :=
  if part_number = "" || item_name = "" || reminder_date = "" then
    .error "All fields are required."
  else if (parseDateYMD reminder_date).isNone then
    .error "Reminder date must be in YYYY-MM-DD format."
  else
    .ok ⟨db.rows ++ [⟨db.nextId, part_number, item_name, chapter, some reminder_date, false⟩],
      db.nextId + 1⟩

/-- Embeds `update_part` of src/src/optima/crud/database.py lines 229-260:
same validation as create, then `UPDATE items SET part_number = ?,
item_name = ?, chapter = ?, reminder_date = ? WHERE id = ?`.  The SET list
does not mention notification_shown, so that column keeps its value. -/
def update_part (db : ItemsDB) (item_id : Nat) (part_number item_name : String)
    (chapter : Int) (reminder_date : String) : Except String ItemsDB :=
  if part_number = "" || item_name = "" || reminder_date = "" then
    .error "All fields are required."
  else if (parseDateYMD reminder_date).isNone then
    .error "Reminder date must be in YYYY-MM-DD format."
  else
    .ok ⟨db.rows.map fun r =>
      if r.id = item_id then
        { r with part_number := part_number, item_name := item_name,
                 chapter := chapter, reminder_date := some reminder_date }
      else r,
      db.nextId⟩

/-- The dictionary returned by `get_part_by_id` (src/src/optima/crud/
database.py lines 275-297): the first five columns, without
notification_shown. -/
structure PartView where
  id : Nat
  part_number : String
  item_name : String
  chapter : Int
  reminder_date : Option String
deriving DecidableEq, Repr

/-- Projection of a row to the dictionary shape of `get_part_by_id`. -/
def Item.toView (r : Item) : PartView :=
  ⟨r.id, r.part_number, r.item_name, r.chapter, r.reminder_date⟩

/-- Embeds `get_part_by_id`: `SELECT * FROM items WHERE id = ?` with
`fetchone` (first matching row in insertion order), `None` if absent. -/
def get_part_by_id (db : ItemsDB) (item_id : Nat) : Option PartView :=
  (db.rows.find? fun r => r.id == item_id).map Item.toView

end Crud

namespace LegacyCrud

/-- Embeds the POST branch of `update` in src/CRUD/crud.py lines 105-126:
`UPDATE items SET part_number = ?, item_name = ?, chapter = ?,
reminder_date = ?, notification_shown = 0 WHERE id = ?`. -/
def update (db : ItemsDB) (item_id : Nat) (part_number item_name : String)
    (chapter : Int) (reminder_date : String) : ItemsDB :=
  ⟨db.rows.map fun r =>
    if r.id = item_id then
      ⟨r.id, part_number, item_name, chapter, some reminder_date, false⟩
    else r,
    db.nextId⟩

/-- Embeds the row loop of `get_upcoming_notifications` in src/CRUD/crud.py
lines 51-62: `strptime` is called with no try/except, so a row whose date
does not parse raises ValueError and aborts the whole scan; likewise the
subtraction `reminder_date - timedelta(days=1)` raises an uncaught
OverflowError when the parsed date is date.min. -/
def notifScan (today : Date) : List Item → Except String (List Notification)
  | [] => .ok []
  | r :: rs =>
    match parseDateYMD (r.reminder_date.getD "") with
    | none => .error "ValueError: time data does not match format"
    | some d =>
      match prevDay d with
      | .error e => .error e
      | .ok dm1 =>
        match notifScan today rs with
        | .error e => .error e
        | .ok rest =>
          .ok ((if today = dm1 then [tomorrowNotif r.item_name]
                else if today = d then [todayNotif r.item_name]
                else []) ++ rest)

/-- Embeds `get_upcoming_notifications` of src/CRUD/crud.py lines 38-64:
same SQL filter as the optima generation, but the loop can raise. -/
def get_upcoming_notifications (db : ItemsDB) (today : Date) :
    Except String (List Notification) :=
  notifScan today (db.rows.filter notifQueryFilter)

end LegacyCrud

/-! ### Specification-side notification engine (for the refinement claim) -/

/-- Messages contributed by a single part row according to the words of the
spec (section 4.3): a part is considered exactly when its reminder_date is
set and notification_acknowledged is false; its date is parsed (rows with
unparseable dates are skipped); one tomorrow message when today equals
reminder_date minus one day, one today message when today equals
reminder_date, nothing otherwise.  The spec's "reminder_date - 1 day" is
the total calendar operation: the spec's words say nothing of the
date.min boundary. -/
def spec_partMessages (today : Date) (r : Item) : List Notification :=
  match r.reminder_date, r.notification_shown with
  | some s, false =>
    match parseDateYMD s with
    | none => []
    | some d =>
      if today = prevDayAux d then [tomorrowNotif r.item_name]
      else if today = d then [todayNotif r.item_name]
      else []
  | _, _ => []

/-- Concatenation of the per-row messages over all rows in insertion
order. -/
def spec_scan (today : Date) : List Item → List Notification
  | [] => []
  | r :: rs => spec_partMessages today r ++ spec_scan today rs

/-- The spec's `pending_notifications(today)` contract, written from the
spec's words rather than from the code, to be compared with
`Crud.get_upcoming_notifications`. -/
def spec_pendingNotifications (db : ItemsDB) (today : Date) : List Notification :=
  spec_scan today db.rows

/-! ### Strings: ASCII case folding and substring containment -/

/-- ASCII lower-casing of one character, the folding SQLite applies to both
sides of LIKE (SQLite's LIKE is case-insensitive for ASCII only). -/
def lowerAscii (c : Char) : Char :=
  if decide ('A' ≤ c) && decide (c ≤ 'Z') then Char.ofNat (c.toNat + 32) else c

/-- ASCII lower-casing of a character list. -/
def lowerList (cs : List Char) : List Char :=
  cs.map lowerAscii

/-- Tests whether the first list is a leading segment of the second. -/
def listStartsWith : List Char → List Char → Bool
  | [], _ => true
  | _ :: _, [] => false
  | n :: ns, h :: hs => n == h && listStartsWith ns hs

/-- Tests whether the first list occurs contiguously inside the second. -/
def listContains (needle : List Char) : List Char → Bool
  | [] => listStartsWith needle []
  | c :: cs => listStartsWith needle (c :: cs) || listContains needle cs

/-- Case-insensitive substring containment on strings: the reading of the
spec's phrase "matching case-insensitive substring". -/
def containsCI (needle hay : String) : Bool :=
  listContains (lowerList needle.data) (lowerList hay.data)

/-! ### SQLite LIKE and the finder's search -/

/-- Character comparison of SQLite's LIKE: case-insensitive for ASCII. -/
def likeChEq (p c : Char) : Bool :=
  lowerAscii p == lowerAscii c

/-- Tries a continuation on every suffix of the text, which is how a `%`
wildcard consumes zero or more characters. -/
def tryDrops (f : List Char → Bool) : List Char → Bool
  | [] => f []
  | c :: cs => f (c :: cs) || tryDrops f cs

/-- SQLite LIKE pattern matching (default, no ESCAPE): `%` matches any
sequence of zero or more characters, `_` matches exactly one character,
any other character matches itself ASCII-case-insensitively. -/
def likeMatch : List Char → List Char → Bool
  | [], cs => cs.isEmpty
  | p :: ps, cs =>
    if p = '%' then tryDrops (likeMatch ps) cs
    else
      match cs with
      | [] => false
      | c :: cs' => (p = '_' || likeChEq p c) && likeMatch ps cs'

/-- The pattern built by the Python f-string `f"%{finder}%"`: the query
text is interpolated verbatim between two `%` wildcards, so `%` and `_`
inside the query text keep their wildcard meaning. -/
def likePattern (finder : String) : List Char :=
  '%' :: (finder.data ++ ['%'])

/-- One row of the `Parts` table populated by
src/parts_finder/Ingresar_datos.py: (index_number, part_number, item_name,
unit_per_assy, avail, chapter, pdf_url). -/
structure FinderPart where
  index_number : Nat
  part_number : String
  item_name : String
  unit_per_assy : Nat
  avail : Option String
  chapter : String
  pdf_url : String
deriving DecidableEq, Repr

namespace Finder

/-- Embeds `search_parts` of src/src/optima/finder/database.py lines 7-41
(identically `parts_finder` of src/parts_finder/parts_finder.py lines
8-37): `SELECT * FROM Parts WHERE part_number LIKE ? OR item_name LIKE ?`
with both parameters `f"%{finder}%"`. -/
def search_parts (parts : List FinderPart) (finder : String) : List FinderPart :=
  parts.filter fun r =>
    likeMatch (likePattern finder) r.part_number.data ||
    likeMatch (likePattern finder) r.item_name.data

end Finder

/-! ### The users table and the credential service -/

/-- One row of the `users` table: id INTEGER PRIMARY KEY AUTOINCREMENT,
username TEXT NOT NULL UNIQUE, password TEXT NOT NULL (the stored hash),
role TEXT NOT NULL DEFAULT 'user'. -/
structure UserRow where
  id : Nat
  username : String
  password : String
  role : String
deriving DecidableEq, Repr

/-- The `users` table in insertion order with its AUTOINCREMENT counter. -/
structure UsersDB where
  rows : List UserRow
  nextId : Nat
deriving DecidableEq, Repr

/-- A flashed message: (text, category). -/
structure Flash where
  message : String
  category : String
deriving DecidableEq, Repr

namespace Auth

/-- The dictionary `{"username": ..., "role": ...}` returned by a
successful `login_user`. -/
structure UserView where
  username : String
  role : String
deriving DecidableEq, Repr

/-- Embeds `login_user` of src/src/optima/login/auth_functions.py lines
11-35, parameterized by werkzeug's `check_password_hash` (stored hash,
supplied password).  `SELECT ... WHERE username = ?` is an exact,
case-sensitive TEXT comparison and `fetchone` takes the first match;
`if user and check_password_hash(user[2], password)` succeeds only when a
row was found and its hash verifies, otherwise one generic flash is
queued and None is returned. -/
def login_user (checkHash : String → String → Bool) (db : UsersDB)
    (username password : String) : Option UserView × List Flash :=
  match db.rows.find? fun u => u.username == username with
  | some u =>
    if checkHash u.password password then (some ⟨u.username, u.role⟩, [])
    else (none, [⟨"Incorrect username or password.", "danger"⟩])
  | none => (none, [⟨"Incorrect username or password.", "danger"⟩])

/-- Embeds `register_user` of src/src/optima/login/auth_functions.py lines
38-62, parameterized by werkzeug's salted `generate_password_hash`: an
exact case-sensitive duplicate-username pre-check (`SELECT id FROM users
WHERE username = ?`), flash and False on a hit with no write, otherwise
`INSERT INTO users (username, password, role) VALUES (?, ?, ?)` storing
the hash. -/
def register_user (genHash : String → String) (db : UsersDB)
    (username password role : String) : Bool × UsersDB × List Flash :=
  match db.rows.find? fun u => u.username == username with
  | some _ => (false, db, [⟨"The username is already registered.", "danger"⟩])
  | none =>
    (true,
     ⟨db.rows ++ [⟨db.nextId, username, genHash password, role⟩], db.nextId + 1⟩,
     [⟨"User registered successfully.", "success"⟩])

end Auth

/-! ### The access guards -/

/-- The session cookie contents set at login: user_id, username, role.
SQLite AUTOINCREMENT ids are at least 1, so `session.get("user_id")` is
truthy exactly when a session exists; an absent session is `none`. -/
structure Session where
  user_id : Nat
  username : String
  role : String
deriving DecidableEq, Repr

/-- The decision of a before-request guard: proceed to the handler, or
flash a warning and redirect to the login page (unauthenticated), to the
non-admin home `login.home_user` (forbidden), or to the login page on a
role mismatch for a user-area path. -/
inductive AccessDecision where
  | allow
  | denyUnauthenticated
  | denyForbidden
  | denyForbiddenToLogin
deriving DecidableEq, Repr

namespace Crud

/-- The `public_routes = []` list of `check_access` in
src/src/optima/crud/routes.py line 81: the CRUD blueprint exposes no
public endpoints. -/
def public_routes : List String := []

/-- Embeds `check_access` of src/src/optima/crud/routes.py lines 73-93,
the before-request hook of the admin-restricted CRUD blueprint: allow
listed public endpoints, redirect to login when no session exists,
redirect to `login.home_user` when the session role is not admin, else
fall through to the handler. -/
def check_access (endpoint : String) (sess : Option Session) : AccessDecision :=
  if endpoint ∈ public_routes then .allow
  else
    match sess with
    | none => .denyUnauthenticated
    | some s => if s.role ≠ "admin" then .denyForbidden else .allow

end Crud

namespace Auth

/-- The `public_routes` list of `check_role_access` in
src/src/optima/login/auth_blueprint.py line 57. -/
def public_routes : List String := ["login.login", "login.register", "static"]

/-- Embeds `check_role_access` of src/src/optima/login/auth_blueprint.py
lines 55-71: allow public endpoints; unauthenticated requests are
redirected to login; then `"admin" in request.path` with a non-admin role
redirects to `login.home_user`, and `"user" in request.path` with a
non-user role redirects to login. -/
def check_role_access (endpoint path : String) (sess : Option Session) :
    AccessDecision :=
  if endpoint ∈ public_routes then .allow
  else
    match sess with
    | none => .denyUnauthenticated
    | some s =>
      if listContains "admin".data path.data && !(s.role == "admin") then
        .denyForbidden
      else if listContains "user".data path.data && !(s.role == "user") then
        .denyForbiddenToLogin
      else .allow

end Auth

/-! ### Connection lifecycle model -/

/-- Observable connection events of one operation against the SQLite
store: `sqlite3.connect` opens, `conn.close()` closes. -/
inductive ConnEvent where
  | openConn
  | closeConn
deriving DecidableEq, Repr

/-- An operation releases every connection it acquired when its event
trace closes as many connections as it opens. -/
def releasesConnections (evs : List ConnEvent) : Bool :=
  evs.count ConnEvent.closeConn == evs.count ConnEvent.openConn

/-- Connection trace of `DatabaseManager.execute_query` in
src/src/optima/crud/database.py lines 46-98, given whether
`cursor.execute` raises: `get_connection` opens the connection and closes
it in a `finally` block, so the close runs on the success path and on the
error path alike. -/
def execute_query_events (queryFails : Bool) : List ConnEvent :=
  if queryFails then [.openConn, .closeConn] else [.openConn, .closeConn]

/-- Connection trace of `search_parts` in
src/src/optima/finder/database.py lines 7-41: `sqlite3.connect` opens the
connection, then `cursor.execute` runs with no try/finally and no with
block, so when the query raises the exception propagates before the
`conn.close()` line is reached and the connection is never closed. -/
def search_parts_events (queryFails : Bool) : List ConnEvent :=
  if queryFails then [.openConn] else [.openConn, .closeConn]

/-- Connection trace of `parts_finder` in
src/parts_finder/parts_finder.py lines 8-37, whose body is
statement-for-statement the same bare connect/execute/close sequence. -/
def parts_finder_events (queryFails : Bool) : List ConnEvent :=
  if queryFails then [.openConn] else [.openConn, .closeConn]

/-! ### The two tables of the parts.db file -/

/-- The parts.db database file as touched by the optima generation: the
`items` table written by the CRUD module and the `Parts` table read by the
finder module (src/src/optima/crud/database.py line 26 and
src/src/optima/finder/database.py line 4 name the same file). -/
structure DbFile where
  items : ItemsDB
  partsTable : List FinderPart
deriving DecidableEq, Repr

/-- `create_part` lifted to the whole database file: the INSERT targets
the `items` table only. -/
def create_part_file (db : DbFile) (part_number item_name : String)
    (chapter : Int) (reminder_date : String) : Except String DbFile :=
  match Crud.create_part db.items part_number item_name chapter reminder_date with
  | .error e => .error e
  | .ok items' => .ok ⟨items', db.partsTable⟩

/-- `search_parts` lifted to the whole database file: the SELECT reads the
`Parts` table only. -/
def search_parts_file (db : DbFile) (finder : String) : List FinderPart :=
  Finder.search_parts db.partsTable finder

/-! ### Helper lemmas -/

/-- The empty string is not a valid date of the fixed format. -/
theorem parseDateYMD_empty : parseDateYMD "" = none := rfl

/-- A row whose stored date does not parse contributes no message in the
optima generation's loop and raises nothing: the ValueError is caught. -/
theorem notifyOne_of_parse_none (today : Date) (nm s : String)
    (h : parseDateYMD s = none) : Crud.notifyOne today nm s = .ok [] := by
  unfold Crud.notifyOne
  by_cases hs : s = ""
  · simp [hs]
  · simp [hs, h]

/-- A row contributing `.ok []` can be removed from the optima scan
without changing its outcome, messages and errors alike. -/
theorem notifScan_skip (today : Date) (r : Item)
    (hr : Crud.notifyOne today r.item_name (r.reminder_date.getD "") = .ok [])
    (l₁ l₂ : List Item) :
    Crud.notifScan today (l₁ ++ r :: l₂) = Crud.notifScan today (l₁ ++ l₂) := by
  induction l₁ with
  | nil =>
    simp only [List.nil_append]
    simp only [Crud.notifScan, hr]
    cases h2 : Crud.notifScan today l₂ <;> simp
  | cons a l₁ ih =>
    have ih' : Crud.notifScan today (l₁.append (r :: l₂))
        = Crud.notifScan today (l₁.append l₂) := ih
    simp only [List.cons_append, Crud.notifScan]
    rw [ih']

/-- On a row selected by the SQL filter whose date does not parse to
date.min, the loop body of the optima generation computes exactly the
spec's per-row messages (the `if reminder_date:` truthiness check agrees
with the parse of the empty string failing). -/
theorem notifyOne_eq_spec (today : Date) (r : Item)
    (h : notifQueryFilter r = true)
    (hmin : parseDateYMD (r.reminder_date.getD "") ≠ some ⟨1, 1, 1⟩) :
    Crud.notifyOne today r.item_name (r.reminder_date.getD "")
      = .ok (spec_partMessages today r) := by
  simp only [notifQueryFilter, Bool.and_eq_true, Bool.not_eq_true',
    Option.isSome_iff_exists] at h
  obtain ⟨⟨s, hs⟩, hshown⟩ := h
  simp only [hs, Option.getD_some] at hmin
  simp only [spec_partMessages, hs, hshown, Option.getD_some]
  unfold Crud.notifyOne
  by_cases hse : s = ""
  · simp [hse, parseDateYMD_empty]
  · rw [if_neg hse]
    cases hp : parseDateYMD s with
    | none => rfl
    | some d =>
      have hd : d ≠ (⟨1, 1, 1⟩ : Date) := fun hdd => hmin (by rw [hp, hdd])
      simp only [prevDay, if_neg hd]
      split_ifs <;> rfl

/-- A row rejected by the SQL filter has no spec-side messages either. -/
theorem spec_partMessages_of_filter_false (today : Date) (r : Item)
    (h : notifQueryFilter r = false) : spec_partMessages today r = [] := by
  cases hrd : r.reminder_date with
  | none => simp [spec_partMessages, hrd]
  | some s =>
    cases hsh : r.notification_shown with
    | false => simp [notifQueryFilter, hrd, hsh] at h
    | true => simp [spec_partMessages, hrd, hsh]

/-- When no selected row's date parses to date.min, filtering then
scanning succeeds with exactly the spec's scan over all rows. -/
theorem notifScan_filter_eq_spec (today : Date) (l : List Item)
    (hmin : ∀ r ∈ l, notifQueryFilter r = true →
      parseDateYMD (r.reminder_date.getD "") ≠ some ⟨1, 1, 1⟩) :
    Crud.notifScan today (l.filter notifQueryFilter) = .ok (spec_scan today l) := by
  induction l with
  | nil => rfl
  | cons r rs ih =>
    have hmin' : ∀ x ∈ rs, notifQueryFilter x = true →
        parseDateYMD (x.reminder_date.getD "") ≠ some ⟨1, 1, 1⟩ :=
      fun x hx => hmin x (List.mem_cons_of_mem r hx)
    by_cases h : notifQueryFilter r = true
    · rw [List.filter_cons_of_pos h]
      simp only [Crud.notifScan,
        notifyOne_eq_spec today r h (hmin r (List.mem_cons_self r rs) h), ih hmin']
      simp [spec_scan]
    · rw [List.filter_cons_of_neg (by simpa using h)]
      rw [ih hmin']
      simp [spec_scan, spec_partMessages_of_filter_false today r (by simpa using h)]

/-- The legacy scan raises as soon as its list contains any row whose
stored date does not parse. -/
theorem legacy_scan_error (today : Date) (l : List Item)
    (h : ∃ r ∈ l, parseDateYMD (r.reminder_date.getD "") = none) :
    ∃ e, LegacyCrud.notifScan today l = .error e := by
  induction l with
  | nil => simp at h
  | cons a rs ih =>
    cases ha : parseDateYMD (a.reminder_date.getD "") with
    | none =>
      exact ⟨"ValueError: time data does not match format",
        by simp [LegacyCrud.notifScan, ha]⟩
    | some d =>
      cases hp : prevDay d with
      | error e => exact ⟨e, by simp [LegacyCrud.notifScan, ha, hp]⟩
      | ok dm1 =>
        obtain ⟨r, hr, hbad⟩ := h
        rcases List.mem_cons.mp hr with rfl | hr'
        · rw [ha] at hbad; cases hbad
        · obtain ⟨e, he⟩ := ih ⟨r, hr', hbad⟩
          exact ⟨e, by simp [LegacyCrud.notifScan, ha, hp, he]⟩

/-! ### Claim C1 -/

/-- Claim C1 counterexample: in the optima generation, `update_part` on an
existing id whose notification_shown flag is true writes the supplied
fields but leaves the flag true — the SET list never mentions
notification_shown, so the flag is not reset to false as the claim
states. -/
theorem claim_C1_counterexample :
    Crud.update_part ⟨[⟨1, "P1", "N1", 3, some "2025-01-01", true⟩], 2⟩
        1 "P2" "N2" 5 "2025-01-02"
      = .ok ⟨[⟨1, "P2", "N2", 5, some "2025-01-02", true⟩], 2⟩ := rfl

/-- Claim C1 amended: only the legacy CRUD generation's `update` resets
notification_shown to 0 while writing the supplied fields; the optima
generation's `update_part` writes the four supplied columns and leaves
every row's notification_shown exactly as it was. -/
theorem claim_C1_amended (db : ItemsDB) (item_id : Nat) (pn nm : String)
    (ch : Int) (rd : String) :
    (∀ r ∈ (LegacyCrud.update db item_id pn nm ch rd).rows,
        r.id = item_id → r = ⟨item_id, pn, nm, ch, some rd, false⟩)
    ∧ (∀ db', Crud.update_part db item_id pn nm ch rd = .ok db' →
        db'.rows.map Item.notification_shown
          = db.rows.map Item.notification_shown) := by
  constructor
  · intro r hr hid
    simp only [LegacyCrud.update, List.mem_map] at hr
    obtain ⟨r₀, _, rfl⟩ := hr
    by_cases h : r₀.id = item_id
    · simp [h]
    · rw [if_neg h] at hid ⊢
      exact absurd hid h
  · intro db' h
    simp only [Crud.update_part] at h
    split at h
    · exact Except.noConfusion h
    · split at h
      · exact Except.noConfusion h
      · injection h with h'
        subst h'
        simp only [List.map_map]
        apply List.map_congr_left
        intro a _
        by_cases ha : a.id = item_id <;> simp [ha, Function.comp]

/-- Concrete instance of the amended claim C1: the legacy update resets
the flag of the matching row; the optima update leaves the flag map of
the table (here, the singleton true) unchanged. -/
theorem claim_C1_witness :
    (⟨1, "P2", "N2", 5, some "2025-01-02", false⟩ : Item)
      = ⟨1, "P2", "N2", 5, some "2025-01-02", false⟩
    ∧ (⟨[⟨1, "P2", "N2", 5, some "2025-01-02", true⟩], 2⟩ : ItemsDB).rows.map
          Item.notification_shown
        = (⟨[⟨1, "P1", "N1", 3, some "2025-01-01", true⟩], 2⟩ : ItemsDB).rows.map
          Item.notification_shown := by
  have h := claim_C1_amended ⟨[⟨1, "P1", "N1", 3, some "2025-01-01", true⟩], 2⟩
    1 "P2" "N2" 5 "2025-01-02"
  exact ⟨h.1 ⟨1, "P2", "N2", 5, some "2025-01-02", false⟩ (by decide) rfl,
    h.2 ⟨[⟨1, "P2", "N2", 5, some "2025-01-02", true⟩], 2⟩ rfl⟩

/-! ### Claim C2 -/

/-- Claim C2 counterexample: a stored reminder date 0001-01-01 (Python's
`date.min`) passes `create_part`'s strptime validation and the scan's
parse, and then `reminder_date - timedelta(days=1)` raises OverflowError,
which `except ValueError` does not catch: the whole scan aborts, and the
today-message the claim requires for the due Washer part is never
emitted. -/
theorem claim_C2_counterexample :
    Crud.get_upcoming_notifications
        ⟨[⟨1, "M1", "MinPart", 1, some "0001-01-01", false⟩,
          ⟨2, "W1", "Washer", 4, some "2025-01-10", false⟩], 3⟩ ⟨2025, 1, 10⟩
      = .error "OverflowError: date value out of range" := rfl

/-- Claim C2 amended: provided no considered row's stored date parses to
0001-01-01 (date.min, where the tomorrow-comparison's subtraction raises
an uncaught OverflowError that aborts the scan), the optima generation's
`get_upcoming_notifications` returns exactly the spec's
`pending_notifications(today)`: parts with a reminder_date set and
notification_shown false contribute one tomorrow message when today is
the day before the parsed reminder date, one today message on the date
itself and nothing otherwise, in insertion order; acknowledged parts and
parts with no reminder_date contribute nothing. -/
theorem claim_C2_amended (db : ItemsDB) (today : Date)
    (hmin : ∀ r ∈ db.rows, notifQueryFilter r = true →
      parseDateYMD (r.reminder_date.getD "") ≠ some ⟨1, 1, 1⟩) :
    Crud.get_upcoming_notifications db today
      = .ok (spec_pendingNotifications db today) :=
  notifScan_filter_eq_spec today db.rows hmin

/-- Concrete instance of the amended claim C2: the Washer part due
2025-01-10 yields exactly one tomorrow message on 2025-01-09. -/
theorem claim_C2_witness :
    Crud.get_upcoming_notifications
        ⟨[⟨1, "W1", "Washer", 4, some "2025-01-10", false⟩], 2⟩ ⟨2025, 1, 9⟩
      = .ok [tomorrowNotif "Washer"] :=
  claim_C2_amended ⟨[⟨1, "W1", "Washer", 4, some "2025-01-10", false⟩], 2⟩
    ⟨2025, 1, 9⟩ (by decide)

/-! ### Claim C3 -/

/-- Claim C3 counterexample: in the legacy CRUD generation the scan has no
try/except, so one unparseable stored date aborts the whole scan with a
ValueError and the qualifying Washer row's today-message is lost, while
the optima generation still returns it. -/
theorem claim_C3_counterexample :
    LegacyCrud.get_upcoming_notifications
        ⟨[⟨1, "B1", "Bolt", 2, some "not-a-date", false⟩,
          ⟨2, "W1", "Washer", 4, some "2025-01-10", false⟩], 3⟩ ⟨2025, 1, 10⟩
      = .error "ValueError: time data does not match format"
    ∧ Crud.get_upcoming_notifications
        ⟨[⟨1, "B1", "Bolt", 2, some "not-a-date", false⟩,
          ⟨2, "W1", "Washer", 4, some "2025-01-10", false⟩], 3⟩ ⟨2025, 1, 10⟩
      = .ok [todayNotif "Washer"] :=
  ⟨rfl, rfl⟩

/-- Claim C3 amended: in the optima generation a row whose stored date
does not parse is skipped (its ValueError is caught and logged) and
contributes nothing: the scan's outcome — the returned messages, or an
error arising from other rows — is exactly that of the table without the
row, so when the remaining rows are well formed their messages are still
returned.  In the legacy CRUD generation any selected row with an
unparseable date makes the whole scan raise instead. -/
theorem claim_C3_amended (pre suf : List Item) (n : Nat) (today : Date)
    (r : Item) (hbad : parseDateYMD (r.reminder_date.getD "") = none) :
    Crud.get_upcoming_notifications ⟨pre ++ r :: suf, n⟩ today
      = Crud.get_upcoming_notifications ⟨pre ++ suf, n⟩ today
    ∧ ∀ db : ItemsDB, r ∈ db.rows → notifQueryFilter r = true →
        ∃ e, LegacyCrud.get_upcoming_notifications db today = .error e := by
  constructor
  · simp only [Crud.get_upcoming_notifications, List.filter_append]
    by_cases h : notifQueryFilter r = true
    · rw [List.filter_cons_of_pos h]
      exact notifScan_skip today r
        (notifyOne_of_parse_none today r.item_name _ hbad) _ _
    · rw [List.filter_cons_of_neg (by simpa using h)]
  · intro db hr hq
    exact legacy_scan_error today _ ⟨r, List.mem_filter.mpr ⟨hr, hq⟩, hbad⟩

/-- Concrete instance of the amended claim C3: dropping the unparseable
Bolt row leaves the optima scan's result unchanged. -/
theorem claim_C3_witness :
    Crud.get_upcoming_notifications
        ⟨[⟨1, "B1", "Bolt", 2, some "not-a-date", false⟩,
          ⟨2, "W1", "Washer", 4, some "2025-01-10", false⟩], 3⟩ ⟨2025, 1, 10⟩
      = Crud.get_upcoming_notifications
        ⟨[⟨2, "W1", "Washer", 4, some "2025-01-10", false⟩], 3⟩ ⟨2025, 1, 10⟩ :=
  (claim_C3_amended [] [⟨2, "W1", "Washer", 4, some "2025-01-10", false⟩] 3
    ⟨2025, 1, 10⟩ ⟨1, "B1", "Bolt", 2, some "not-a-date", false⟩ rfl).1

/-! ### Claim C9 -/

/-- Claim C9 (code bug): `DatabaseManager.get_connection` closes its
connection in a finally block on success and on a failed query alike, but
the finder generation's `search_parts` and `parts_finder` open a bare
connection with no try/finally, so on a failed query (the failing input)
the close line is never reached and the connection is leaked. -/
theorem claim_C9_leak :
    releasesConnections (execute_query_events false) = true
    ∧ releasesConnections (execute_query_events true) = true
    ∧ releasesConnections (search_parts_events false) = true
    ∧ releasesConnections (search_parts_events true) = false
    ∧ releasesConnections (parts_finder_events true) = false := by
  decide

/-! ### Claim C10 -/

/-- Claim C10: the catalog's create writes only the `items` table while
the finder's search reads only the `Parts` table of the same database
file, so a successful create leaves every search result of every query
string exactly as it was — a part created through the catalog service is
never returned by search. -/
theorem claim_C10_disjoint_tables (db : DbFile) (pn nm : String) (ch : Int)
    (rd : String) (db' : DbFile)
    (h : create_part_file db pn nm ch rd = .ok db') :
    db'.partsTable = db.partsTable
    ∧ ∀ s, search_parts_file db' s = search_parts_file db s := by
  simp only [create_part_file] at h
  cases hc : Crud.create_part db.items pn nm ch rd with
  | error e => rw [hc] at h; exact Except.noConfusion h
  | ok its =>
    rw [hc] at h
    injection h with h'
    subst h'
    exact ⟨rfl, fun _ => rfl⟩

/-- The Parts row inserted by src/parts_finder/Ingresar_datos.py lines
9-11, used as a concrete search target. -/
def msPart : FinderPart :=
  ⟨1, "MS35265-63", "SCREW (USBL ON 209-062-502-007 AND -009)", 4, some "SP",
    "79 ACEITE DEL MOTOR", "IPB/FIGURES/212-IPB-CH79-F01.pdf"⟩

/-- Concrete instance of claim C10: creating the Washer part changes
neither the Parts table nor the result of searching for its part
number. -/
theorem claim_C10_witness :
    (DbFile.mk ⟨[⟨1, "W1", "Washer", 4, some "2025-01-10", false⟩], 2⟩
        [msPart]).partsTable
      = (DbFile.mk ⟨[], 1⟩ [msPart]).partsTable
    ∧ search_parts_file
        (DbFile.mk ⟨[⟨1, "W1", "Washer", 4, some "2025-01-10", false⟩], 2⟩ [msPart]) "W1"
      = search_parts_file (DbFile.mk ⟨[], 1⟩ [msPart]) "W1" := by
  have h := claim_C10_disjoint_tables (DbFile.mk ⟨[], 1⟩ [msPart]) "W1" "Washer" 4
    "2025-01-10"
    (DbFile.mk ⟨[⟨1, "W1", "Washer", 4, some "2025-01-10", false⟩], 2⟩ [msPart]) rfl
  exact ⟨h.1, h.2 "W1"⟩

/-! ### Claim C4 -/

/-- Claim C4: the access guards decide as the spec states.  For the
admin-restricted CRUD blueprint's `check_access`: a configured public
endpoint is allowed, an absent session is denied as unauthenticated
(redirect to login), a session whose role is not admin is denied as
forbidden (redirect to the non-admin home `login.home_user`), and an
admin session is allowed.  For `check_role_access` of the login
blueprint, on an admin-restricted path (path contains "admin" and not
"user") the same three-way decision is made. -/
theorem claim_C4_access_guard (endpoint path : String) (sess : Option Session) :
    (endpoint ∈ Crud.public_routes →
      Crud.check_access endpoint sess = .allow)
    ∧ (endpoint ∉ Crud.public_routes → sess = none →
      Crud.check_access endpoint sess = .denyUnauthenticated)
    ∧ (∀ s, endpoint ∉ Crud.public_routes → sess = some s →
        s.role ≠ "admin" → Crud.check_access endpoint sess = .denyForbidden)
    ∧ (∀ s, sess = some s → s.role = "admin" →
        Crud.check_access endpoint sess = .allow)
    ∧ (endpoint ∈ Auth.public_routes →
      Auth.check_role_access endpoint path sess = .allow)
    ∧ (endpoint ∉ Auth.public_routes →
        listContains "admin".data path.data = true →
        listContains "user".data path.data = false →
        (sess = none →
          Auth.check_role_access endpoint path sess = .denyUnauthenticated)
        ∧ (∀ s, sess = some s → s.role ≠ "admin" →
            Auth.check_role_access endpoint path sess = .denyForbidden)
        ∧ (∀ s, sess = some s → s.role = "admin" →
            Auth.check_role_access endpoint path sess = .allow)) := by
  refine ⟨fun hp => ?_, fun hp hn => ?_, fun s hp hs hr => ?_, fun s hs hr => ?_,
    fun hp => ?_, fun hp hadm husr => ⟨fun hn => ?_, fun s hs hr => ?_, fun s hs hr => ?_⟩⟩
  · simp [Crud.check_access, hp]
  · simp [Crud.check_access, hp, hn]
  · subst hs
    simp [Crud.check_access, hp, hr]
  · subst hs
    simp [Crud.check_access, hr, Crud.public_routes]
  · simp [Auth.check_role_access, hp]
  · simp [Auth.check_role_access, hp, hn]
  · subst hs
    simp [Auth.check_role_access, hp, hadm, hr]
  · subst hs
    simp [Auth.check_role_access, hp, hadm, husr, hr]

/-- Concrete instance of claim C4: on the CRUD blueprint, no session is
redirected to login, a user-role session is redirected to the non-admin
home, and an admin session passes; the same holds on the login
blueprint's admin home path. -/
theorem claim_C4_witness :
    Crud.check_access "crud.parts_list" none = .denyUnauthenticated
    ∧ Crud.check_access "crud.parts_list" (some ⟨7, "u", "user"⟩) = .denyForbidden
    ∧ Crud.check_access "crud.parts_list" (some ⟨1, "a", "admin"⟩) = .allow
    ∧ Auth.check_role_access "login.admin_dashboard" "/home_admin"
        (some ⟨7, "u", "user"⟩) = .denyForbidden := by
  have h1 := claim_C4_access_guard "crud.parts_list" "/crud/" none
  have h2 := claim_C4_access_guard "crud.parts_list" "/crud/" (some ⟨7, "u", "user"⟩)
  have h3 := claim_C4_access_guard "crud.parts_list" "/crud/" (some ⟨1, "a", "admin"⟩)
  have h4 := claim_C4_access_guard "login.admin_dashboard" "/home_admin"
    (some ⟨7, "u", "user"⟩)
  exact ⟨h1.2.1 (by simp [Crud.public_routes]) rfl,
    h2.2.2.1 ⟨7, "u", "user"⟩ (by simp [Crud.public_routes]) rfl (by decide),
    h3.2.2.2.1 ⟨1, "a", "admin"⟩ rfl rfl,
    (h4.2.2.2.2.2 (by simp [Auth.public_routes]) (by decide) (by decide)).2.1
      ⟨7, "u", "user"⟩ rfl (by decide)⟩

/-! ### Claim C6 -/

/-- Claim C6: `register_user` fails exactly when some stored row carries
the same username under case-sensitive string equality; on failure the
users table is returned unmodified (so the pre-existing row is intact)
and the duplicate flash is queued; otherwise the new row is appended
storing the hash of the password produced by the salted hash function. -/
theorem claim_C6_register (genHash : String → String) (db : UsersDB)
    (un pw role : String) :
    ((Auth.register_user genHash db un pw role).1 = false ↔
      ∃ u ∈ db.rows, u.username = un)
    ∧ ((Auth.register_user genHash db un pw role).1 = false →
        (Auth.register_user genHash db un pw role).2.1 = db
        ∧ (Auth.register_user genHash db un pw role).2.2
          = [⟨"The username is already registered.", "danger"⟩])
    ∧ ((Auth.register_user genHash db un pw role).1 = true →
        (Auth.register_user genHash db un pw role).2.1.rows
          = db.rows ++ [⟨db.nextId, un, genHash pw, role⟩]) := by
  unfold Auth.register_user
  cases hf : db.rows.find? fun u => u.username == un with
  | none =>
    refine ⟨⟨fun h => absurd h (by simp), fun h => ?_⟩, fun h => absurd h (by simp),
      fun _ => rfl⟩
    obtain ⟨u, hu, hun⟩ := h
    have := List.find?_eq_none.mp hf u hu
    simp [hun] at this
  | some u =>
    refine ⟨⟨fun _ => ?_, fun _ => rfl⟩, fun _ => ⟨rfl, rfl⟩, fun h => absurd h (by simp)⟩
    exact ⟨u, List.mem_of_find?_eq_some hf,
      by simpa using List.find?_some hf⟩

/-- Concrete instance of claim C6: registering the existing username
alice again fails and leaves the table with its original single row,
while registering bob appends a row holding the hash of his password. -/
theorem claim_C6_witness :
    (Auth.register_user (fun s => "hash:" ++ s)
        ⟨[⟨1, "alice", "hash:pw1", "admin"⟩], 2⟩ "alice" "pw2" "user").2.1
      = ⟨[⟨1, "alice", "hash:pw1", "admin"⟩], 2⟩
    ∧ (Auth.register_user (fun s => "hash:" ++ s)
        ⟨[⟨1, "alice", "hash:pw1", "admin"⟩], 2⟩ "bob" "pw3" "user").2.1.rows
      = [⟨1, "alice", "hash:pw1", "admin"⟩] ++ [⟨2, "bob", "hash:pw3", "user"⟩] := by
  have h1 := claim_C6_register (fun s => "hash:" ++ s)
    ⟨[⟨1, "alice", "hash:pw1", "admin"⟩], 2⟩ "alice" "pw2" "user"
  have h2 := claim_C6_register (fun s => "hash:" ++ s)
    ⟨[⟨1, "alice", "hash:pw1", "admin"⟩], 2⟩ "bob" "pw3" "user"
  exact ⟨(h1.2.1 (by decide)).1, h2.2.2 (by decide)⟩

/-! ### Claim C7 -/

/-- Claim C7: whenever no stored row for the queried username verifies
against the supplied password — whether because the username is absent or
because the hash check fails — `login_user` returns None together with
the one generic incorrect-credentials flash, so the response is identical
in both cases; and it returns the user's view exactly when the first row
with that username verifies. -/
theorem claim_C7_authenticate (checkHash : String → String → Bool)
    (db : UsersDB) (un pw : String) :
    ((∀ u, db.rows.find? (fun x => x.username == un) = some u →
        checkHash u.password pw = false) →
      Auth.login_user checkHash db un pw
        = (none, [⟨"Incorrect username or password.", "danger"⟩]))
    ∧ (∀ u, db.rows.find? (fun x => x.username == un) = some u →
        checkHash u.password pw = true →
        Auth.login_user checkHash db un pw = (some ⟨u.username, u.role⟩, [])) := by
  unfold Auth.login_user
  cases hf : db.rows.find? fun x => x.username == un with
  | none => exact ⟨fun _ => rfl, fun u hu => Option.noConfusion hu⟩
  | some u =>
    constructor
    · intro h
      have hc := h u rfl
      simp [hc]
    · intro v hv hchk
      injection hv with hv
      subst hv
      simp [hchk]

/-- Concrete instance of claim C7: a wrong password for the existing user
alice and any password for the absent user mallory produce the very same
response, and the right password returns alice's view. -/
theorem claim_C7_witness :
    Auth.login_user (fun h p => h == "hash:" ++ p)
        ⟨[⟨1, "alice", "hash:pw1", "admin"⟩], 2⟩ "alice" "wrong"
      = (none, [⟨"Incorrect username or password.", "danger"⟩])
    ∧ Auth.login_user (fun h p => h == "hash:" ++ p)
        ⟨[⟨1, "alice", "hash:pw1", "admin"⟩], 2⟩ "mallory" "wrong"
      = (none, [⟨"Incorrect username or password.", "danger"⟩])
    ∧ Auth.login_user (fun h p => h == "hash:" ++ p)
        ⟨[⟨1, "alice", "hash:pw1", "admin"⟩], 2⟩ "alice" "pw1"
      = (some ⟨"alice", "admin"⟩, []) := by
  have h1 := claim_C7_authenticate (fun h p => h == "hash:" ++ p)
    ⟨[⟨1, "alice", "hash:pw1", "admin"⟩], 2⟩ "alice" "wrong"
  have h2 := claim_C7_authenticate (fun h p => h == "hash:" ++ p)
    ⟨[⟨1, "alice", "hash:pw1", "admin"⟩], 2⟩ "mallory" "wrong"
  have h3 := claim_C7_authenticate (fun h p => h == "hash:" ++ p)
    ⟨[⟨1, "alice", "hash:pw1", "admin"⟩], 2⟩ "alice" "pw1"
  exact ⟨h1.1 (by decide), h2.1 (by decide),
    h3.2 ⟨1, "alice", "hash:pw1", "admin"⟩ (by decide) (by decide)⟩

/-! ### Claim C8 -/

/-- Claim C8 counterexample: the claim calls reminder_date optional, but
`create_part` rejects an omitted (empty) reminder_date with a
ValidationError instead of succeeding. -/
theorem claim_C8_counterexample :
    Crud.create_part ⟨[], 1⟩ "W1" "Washer" 4 ""
      = .error "All fields are required." := rfl

/-- Claim C8 amended: reminder_date is in fact required.  For inputs with
part_number and item_name non-empty and reminder_date parsing in the
fixed format, create succeeds, appending the new row under the fresh
AUTOINCREMENT id, and `get_part_by_id` of that id returns exactly the
supplied field values; inputs with an empty required field or an
unparseable reminder_date fail with a ValidationError. -/
theorem claim_C8_amended (db : ItemsDB) (pn nm : String) (ch : Int) (rd : String) :
    (db.wf → pn ≠ "" → nm ≠ "" → (parseDateYMD rd).isSome = true →
      Crud.create_part db pn nm ch rd
        = .ok ⟨db.rows ++ [⟨db.nextId, pn, nm, ch, some rd, false⟩], db.nextId + 1⟩
      ∧ Crud.get_part_by_id
          ⟨db.rows ++ [⟨db.nextId, pn, nm, ch, some rd, false⟩], db.nextId + 1⟩
          db.nextId
        = some ⟨db.nextId, pn, nm, ch, some rd⟩)
    ∧ (pn = "" ∨ nm = "" ∨ parseDateYMD rd = none →
      ∃ e, Crud.create_part db pn nm ch rd = .error e) := by
  constructor
  · intro hwf hpn hnm hrd
    have hrdne : rd ≠ "" := by
      intro h
      rw [h, parseDateYMD_empty] at hrd
      cases hrd
    constructor
    · simp [Crud.create_part, hpn, hnm, hrdne, Option.isNone_iff_eq_none,
        Option.isSome_iff_ne_none.mp hrd]
    · unfold Crud.get_part_by_id
      have hnone : (db.rows.find? fun r => r.id == db.nextId) = none := by
        apply List.find?_eq_none.mpr
        intro r hr
        simp only [beq_iff_eq]
        exact Nat.ne_of_lt (hwf r hr)
      rw [List.find?_append, hnone]
      simp [Crud.Item.toView]
  · intro h
    rcases h with h | h | h
    · exact ⟨"All fields are required.", by simp [Crud.create_part, h]⟩
    · exact ⟨"All fields are required.", by simp [Crud.create_part, h]⟩
    · by_cases hpn : pn = ""
      · exact ⟨"All fields are required.", by simp [Crud.create_part, hpn]⟩
      · by_cases hnm : nm = ""
        · exact ⟨"All fields are required.", by simp [Crud.create_part, hpn, hnm]⟩
        · by_cases hrdne : rd = ""
          · exact ⟨"All fields are required.",
              by simp [Crud.create_part, hpn, hnm, hrdne]⟩
          · exact ⟨"Reminder date must be in YYYY-MM-DD format.",
              by simp [Crud.create_part, hpn, hnm, hrdne, h]⟩

/-- Concrete instance of the amended claim C8: the Washer part with a
valid reminder date is created under id 1 and read back with identical
field values. -/
theorem claim_C8_witness :
    Crud.create_part ⟨[], 1⟩ "W1" "Washer" 4 "2025-01-10"
      = .ok ⟨[⟨1, "W1", "Washer", 4, some "2025-01-10", false⟩], 2⟩
    ∧ Crud.get_part_by_id ⟨[⟨1, "W1", "Washer", 4, some "2025-01-10", false⟩], 2⟩ 1
      = some ⟨1, "W1", "Washer", 4, some "2025-01-10"⟩ :=
  (claim_C8_amended ⟨[], 1⟩ "W1" "Washer" 4 "2025-01-10").1
    (by intro r hr; cases hr) (by decide) (by decide) (by decide)

/-! ### LIKE-matching lemmas for claim C5 -/

/-- Characterization of the leading-segment test. -/
theorem listStartsWith_iff (n h : List Char) :
    listStartsWith n h = true ↔ ∃ t, h = n ++ t := by
  induction n generalizing h with
  | nil => simp [listStartsWith]
  | cons a ns ih =>
    cases h with
    | nil => simp [listStartsWith]
    | cons c hs =>
      simp only [listStartsWith, Bool.and_eq_true, beq_iff_eq, ih,
        List.cons_append, List.cons.injEq]
      constructor
      · rintro ⟨rfl, t, rfl⟩
        exact ⟨t, rfl, rfl⟩
      · rintro ⟨t, rfl, rfl⟩
        exact ⟨rfl, t, rfl⟩

/-- Characterization of contiguous containment. -/
theorem listContains_iff (n h : List Char) :
    listContains n h = true ↔ ∃ p t, h = p ++ n ++ t := by
  induction h with
  | nil =>
    simp only [listContains, listStartsWith_iff]
    constructor
    · rintro ⟨t, ht⟩
      exact ⟨[], t, ht⟩
    · rintro ⟨p, t, hpt⟩
      rcases p with _ | ⟨a, p'⟩
      · exact ⟨t, hpt⟩
      · exact List.noConfusion hpt
  | cons c cs ih =>
    simp only [listContains, Bool.or_eq_true, listStartsWith_iff, ih]
    constructor
    · rintro (⟨t, ht⟩ | ⟨p, t, rfl⟩)
      · exact ⟨[], t, ht⟩
      · exact ⟨c :: p, t, rfl⟩
    · rintro ⟨p, t, hpt⟩
      rcases p with _ | ⟨a, p'⟩
      · exact Or.inl ⟨t, hpt⟩
      · injection hpt with h1 h2
        exact Or.inr ⟨p', t, h2⟩

/-- A `%` wildcard succeeds exactly when the continuation accepts some
suffix of the text. -/
theorem tryDrops_iff (f : List Char → Bool) (cs : List Char) :
    tryDrops f cs = true ↔ ∃ p s, cs = p ++ s ∧ f s = true := by
  induction cs with
  | nil =>
    simp only [tryDrops]
    constructor
    · intro h
      exact ⟨[], [], rfl, h⟩
    · rintro ⟨p, s, hps, hf⟩
      rcases p with _ | ⟨a, p'⟩
      · rw [show ([] : List Char) = s from hps]
        exact hf
      · exact List.noConfusion hps
  | cons c cs ih =>
    simp only [tryDrops, Bool.or_eq_true, ih]
    constructor
    · rintro (h | ⟨p, s, rfl, hf⟩)
      · exact ⟨[], c :: cs, rfl, h⟩
      · exact ⟨c :: p, s, rfl, hf⟩
    · rintro ⟨p, s, hps, hf⟩
      rcases p with _ | ⟨a, p'⟩
      · left
        rw [show c :: cs = s from hps]
        exact hf
      · injection hps with h1 h2
        exact Or.inr ⟨p', s, h2, hf⟩

/-- The pattern consisting of a single `%` matches every text. -/
theorem likeMatch_percent_nil (cs : List Char) : likeMatch ['%'] cs = true := by
  have h : tryDrops (likeMatch []) cs = true :=
    (tryDrops_iff _ cs).mpr ⟨cs, [], by simp, rfl⟩
  simpa [likeMatch] using h

/-- For a wildcard-free pattern followed by a closing `%`, matching means
the case-folded pattern is a leading segment of the case-folded text. -/
theorem likeMatch_append_percent (ps : List Char)
    (hw : ∀ c ∈ ps, c ≠ '%' ∧ c ≠ '_') (cs : List Char) :
    likeMatch (ps ++ ['%']) cs = true ↔ ∃ t, lowerList cs = lowerList ps ++ t := by
  induction ps generalizing cs with
  | nil =>
    simp only [List.nil_append, lowerList, List.map_nil]
    exact ⟨fun _ => ⟨cs.map lowerAscii, rfl⟩, fun _ => likeMatch_percent_nil cs⟩
  | cons p ps ih =>
    have hp := hw p (List.mem_cons_self p ps)
    have hw' : ∀ c ∈ ps, c ≠ '%' ∧ c ≠ '_' :=
      fun c hc => hw c (List.mem_cons_of_mem p hc)
    cases cs with
    | nil =>
      have hfalse : likeMatch ((p :: ps) ++ ['%']) [] = false := by
        simp [likeMatch, hp.1]
      rw [hfalse]
      simp [lowerList]
    | cons c cs =>
      have hstep : likeMatch ((p :: ps) ++ ['%']) (c :: cs)
          = ((decide (p = '_') || likeChEq p c) && likeMatch (ps ++ ['%']) cs) := by
        simp [likeMatch, hp.1]
      rw [hstep, decide_eq_false hp.2, Bool.false_or, Bool.and_eq_true]
      constructor
      · rintro ⟨hpc, hm⟩
        obtain ⟨t, ht⟩ := (ih hw' cs).mp hm
        refine ⟨t, ?_⟩
        have hpc' : lowerAscii p = lowerAscii c := by
          simpa [likeChEq] using hpc
        simp only [lowerList] at ht
        simp only [lowerList, List.map_cons, List.cons_append]
        rw [hpc', ht]
      · rintro ⟨t, ht⟩
        simp only [lowerList, List.map_cons, List.cons_append] at ht
        injection ht with h1 h2
        exact ⟨by simp [likeChEq, h1], (ih hw' cs).mpr ⟨t, h2⟩⟩

/-- On wildcard-free query text, the `f"%{finder}%"` pattern matches
exactly when the case-folded query occurs inside the case-folded text. -/
theorem likeMatch_pattern_iff (s : List Char)
    (hw : ∀ c ∈ s, c ≠ '%' ∧ c ≠ '_') (cs : List Char) :
    likeMatch ('%' :: (s ++ ['%'])) cs = true
      ↔ ∃ p t, lowerList cs = p ++ lowerList s ++ t := by
  have h1 : likeMatch ('%' :: (s ++ ['%'])) cs
      = tryDrops (likeMatch (s ++ ['%'])) cs := by
    simp [likeMatch]
  rw [h1, tryDrops_iff]
  constructor
  · rintro ⟨p, s', rfl, hm⟩
    obtain ⟨t, ht⟩ := (likeMatch_append_percent s hw s').mp hm
    refine ⟨lowerList p, t, ?_⟩
    simp only [lowerList, List.map_append] at ht ⊢
    rw [ht, List.append_assoc]
  · rintro ⟨p, t, hpt⟩
    rw [List.append_assoc] at hpt
    refine ⟨cs.take p.length, cs.drop p.length, (List.take_append_drop _ _).symm, ?_⟩
    apply (likeMatch_append_percent s hw _).mpr
    refine ⟨t, ?_⟩
    have hmap : lowerList (cs.drop p.length) = (lowerList cs).drop p.length := by
      simp [lowerList, List.map_drop]
    rw [hmap, hpt, List.drop_left]

/-- On wildcard-free query text, LIKE with the interpolated pattern is the
case-insensitive substring test. -/
theorem likeMatch_eq_containsCI (s t : String)
    (hw : ∀ c ∈ s.data, c ≠ '%' ∧ c ≠ '_') :
    likeMatch (likePattern s) t.data = containsCI s t := by
  rw [Bool.eq_iff_iff, likePattern, likeMatch_pattern_iff s.data hw t.data,
    containsCI, listContains_iff]

/-! ### Claim C5 -/

/-- Claim C5 counterexample: the query string is interpolated into the
LIKE pattern, so the underscore acts as a wildcard: searching the part
AB for the string containing an underscore returns the part although
neither its part_number nor its item_name contains that string as a
case-insensitive substring — search does not return exactly the substring
matches for every query string. -/
theorem claim_C5_counterexample :
    Finder.search_parts [⟨1, "AB", "X", 1, none, "4", "u"⟩] "A_"
      = [⟨1, "AB", "X", 1, none, "4", "u"⟩]
    ∧ containsCI "A_" "AB" = false
    ∧ containsCI "A_" "X" = false := by
  decide

/-- Claim C5 amended: for query strings free of the LIKE wildcard
characters `%` and `_`, search returns exactly the rows whose part_number
or item_name contains the query as a case-insensitive substring, and the
empty query returns every row; queries containing `%` or `_` have those
characters act as wildcards instead of literal substring characters. -/
theorem claim_C5_amended (parts : List FinderPart) (s : String)
    (hw : ∀ c ∈ s.data, c ≠ '%' ∧ c ≠ '_') :
    Finder.search_parts parts s
      = parts.filter (fun r => containsCI s r.part_number || containsCI s r.item_name)
    ∧ Finder.search_parts parts "" = parts := by
  constructor
  · unfold Finder.search_parts
    apply List.filter_congr
    intro r _
    rw [likeMatch_eq_containsCI s r.part_number hw,
      likeMatch_eq_containsCI s r.item_name hw]
  · unfold Finder.search_parts
    have hall : ∀ cs : List Char, likeMatch (likePattern "") cs = true := by
      intro cs
      have h2 : likeMatch (likePattern "") cs = tryDrops (likeMatch ['%']) cs := by
        simp [likeMatch, likePattern]
      rw [h2, tryDrops_iff]
      exact ⟨[], cs, rfl, likeMatch_percent_nil cs⟩
    simp [hall]

/-- Concrete instance of the amended claim C5: the part MS35265-63 is
found by the wildcard-free queries 35265 and ms35265-63 (matching
case-insensitively), and the empty query returns every row. -/
theorem claim_C5_witness :
    Finder.search_parts [msPart] "35265" = [msPart]
    ∧ Finder.search_parts [msPart] "ms35265-63" = [msPart]
    ∧ Finder.search_parts [msPart] "" = [msPart] := by
  have h1 := claim_C5_amended [msPart] "35265" (by decide)
  have h2 := claim_C5_amended [msPart] "ms35265-63" (by decide)
  exact ⟨h1.1.trans (by decide), h2.1.trans (by decide), h1.2⟩

end Optima
